import Mathlib

/-!
Shallow embedding of `src/ServerHook.py`, a conversational webhook backend
(Zoho SalesIQ bot): text normalizer, session store, quote-form parser,
conversation state machine and the webhook dispatcher, together with
theorems settling the specification claims.

Python standard-library behaviour that the source calls into is modelled
explicitly: `str.lower` and `unicodedata.normalize("NFD", ...)` are
modelled by finite character tables covering ASCII and the accented
Spanish characters the program manipulates; `str.strip` and
`str.splitlines` are modelled over the common whitespace and line-break
characters.  Attribute access on a non-object (which raises
`AttributeError` in Python) is modelled with `Except.error`.
-/

namespace ServerHook

/-- Modelled from the Python builtin `str.lower`: lowering table for the
ASCII letters and the accented uppercase letters the bot manipulates. -/
def tablaMinusculas : List (Char × Char) :=
  [('A', 'a'), ('B', 'b'), ('C', 'c'), ('D', 'd'), ('E', 'e'), ('F', 'f'),
   ('G', 'g'), ('H', 'h'), ('I', 'i'), ('J', 'j'), ('K', 'k'), ('L', 'l'),
   ('M', 'm'), ('N', 'n'), ('O', 'o'), ('P', 'p'), ('Q', 'q'), ('R', 'r'),
   ('S', 's'), ('T', 't'), ('U', 'u'), ('V', 'v'), ('W', 'w'), ('X', 'x'),
   ('Y', 'y'), ('Z', 'z'),
   ('Á', 'á'), ('É', 'é'), ('Í', 'í'), ('Ó', 'ó'), ('Ú', 'ú'), ('Ü', 'ü'),
   ('Ñ', 'ñ')]

/-- Lookup of a character in an association table. -/
def buscarChar {β : Type} (c : Char) : List (Char × β) → Option β
  | [] => none
  | (a, b) :: resto => if c = a then some b else buscarChar c resto

/-- Modelled from `str.lower`, character by character, via the table. -/
def pyMinuscula (c : Char) : Char :=
  match buscarChar c tablaMinusculas with
  | some d => d
  | none => c

/-- Modelled from `unicodedata.normalize("NFD", ...)` applied to one
character: canonical decomposition of the accented lowercase letters the
bot manipulates. -/
def tablaNFD : List (Char × List Char) :=
  [('á', ['a', '\u0301']), ('é', ['e', '\u0301']), ('í', ['i', '\u0301']),
   ('ó', ['o', '\u0301']), ('ú', ['u', '\u0301']), ('ü', ['u', '\u0308']),
   ('ñ', ['n', '\u0303'])]

/-- Canonical decomposition of a character (identity off the table). -/
def nfdChar (c : Char) : List Char :=
  match buscarChar c tablaNFD with
  | some l => l
  | none => [c]

/-- Modelled from `unicodedata.category(c) == "Mn"`: the combining
diacritical marks block U+0300 to U+036F. -/
def esMarca (c : Char) : Bool :=
  decide (0x300 ≤ c.toNat) && decide (c.toNat ≤ 0x36F)

/-- Modelled from the whitespace set of Python `str.strip` (ASCII part). -/
def esEspacio (c : Char) : Bool :=
  c = ' ' || c = '\t' || c = '\n' || c = '\r' || c = '\x0b' || c = '\x0c'

/-- Trim characters satisfying `p` from both ends of a list. -/
def recortar (p : Char → Bool) (l : List Char) : List Char :=
  ((l.dropWhile p).reverse.dropWhile p).reverse

/-- Modelled from Python `str.strip`. -/
def pyStrip (s : String) : String :=
  String.mk (recortar esEspacio s.toList)

/-- Embedded from `normalizar_texto` (ServerHook.py lines 45-54):
lower-case, NFD-decompose, drop the combining marks, then strip. -/
def normalizar_texto (txt : String) : String :=
  if txt = "" then ""
  else
    String.mk (recortar esEspacio
      (((txt.toList.map pyMinuscula).flatMap nfdChar).filter (fun c => !esMarca c)))

/-- Modelled from the Python `in` operator on strings (substring test),
over character lists. -/
def esSubListaDe (n : List Char) : List Char → Bool
  | [] => n.isEmpty
  | c :: resto => n.isPrefixOf (c :: resto) || esSubListaDe n resto

/-- Modelled from the Python `in` operator on strings (substring test). -/
def contiene (aguja pajar : String) : Bool :=
  esSubListaDe aguja.toList pajar.toList

/-- Modelled from Python `str.startswith`. -/
def empiezaCon (s pre : String) : Bool :=
  pre.toList.isPrefixOf s.toList

/-- Modelled from Python `str.splitlines` over the line breaks LF, CR and
CRLF; `acc` holds the (reversed) characters of the current line. -/
def partirLineas : List Char → List Char → List String
  | acc, [] => if acc.isEmpty then [] else [String.mk acc.reverse]
  | acc, '\r' :: '\n' :: resto => String.mk acc.reverse :: partirLineas [] resto
  | acc, '\r' :: resto => String.mk acc.reverse :: partirLineas [] resto
  | acc, '\n' :: resto => String.mk acc.reverse :: partirLineas [] resto
  | acc, c :: resto => partirLineas (c :: acc) resto

/-- El diccionario `data` de una sesión: claves y valores de texto. -/
abbrev Datos := List (String × String)

/-- Modelled from Python dict item assignment `d[k] = v` (replace in place
or append at the end, as insertion-ordered dicts do). -/
def datosPon (d : Datos) (k v : String) : Datos :=
  match d with
  | [] => [(k, v)]
  | (a, b) :: resto => if a = k then (k, v) :: resto else (a, b) :: datosPon resto k v

/-- Modelled from Python `d.get(k)` (None when absent). -/
def datosBusca (d : Datos) (k : String) : Option String :=
  match d with
  | [] => none
  | (a, b) :: resto => if a = k then some b else datosBusca resto k

/-- Modelled from Python `d.update(pairs)`. -/
def datosActualiza (d : Datos) (ps : List (String × String)) : Datos :=
  ps.foldl (fun acc kv => datosPon acc kv.1 kv.2) d

/-- Una sesión de conversación: `{"state": ..., "data": {...}}` (line 10). -/
structure Session where
  state : String
  data : Datos
  deriving DecidableEq

/-- El diccionario global `sessions` (line 11). -/
abbrev Almacen := List (String × Session)

/-- Modelled from dict lookup on the session store. -/
def almacenBusca (st : Almacen) (k : String) : Option Session :=
  match st with
  | [] => none
  | (a, s) :: resto => if a = k then some s else almacenBusca resto k

/-- Modelled from dict item assignment on the session store. -/
def almacenPon (st : Almacen) (k : String) (s : Session) : Almacen :=
  match st with
  | [] => [(k, s)]
  | (a, b) :: resto => if a = k then (k, s) :: resto else (a, b) :: almacenPon resto k s

/-- La sesión por defecto `{"state": "inicio", "data": {}}` (lines 75-78). -/
def sesion_inicial : Session := ⟨"inicio", []⟩

/-- Modelled from `sessions.setdefault(visitor_id, ...)` (line 75): returns
the session and the possibly-extended store. -/
def setdefaultSesion (st : Almacen) (k : String) (dflt : Session) : Session × Almacen :=
  match almacenBusca st k with
  | some s => (s, st)
  | none => (dflt, st ++ [(k, dflt)])

/-- El descriptor `input` de una respuesta (un control select). -/
structure InputCard where
  type : String
  options : List String
  deriving DecidableEq

/-- La estructura de respuesta que entiende Zobot. -/
structure Reply where
  action : String
  replies : List String
  input : Option InputCard
  deriving DecidableEq

/-- Embedded from `build_reply` (lines 27-42); the Python overload that
takes a single string wraps it into a one-element list, written
`build_reply [s]` at those call sites; `action` is always "reply". -/
def build_reply (texts : List String) (input_card : Option InputCard) : Reply :=
  { action := "reply", replies := texts, input := input_card }

/-- Valores JSON: el modelo del payload entrante (resultado de
`request.get_json(force=True, silent=True)`). -/
inductive JVal where
  | jnull
  | jbool (b : Bool)
  | jnum (n : Int)
  | jstr (s : String)
  | jarr (elems : List JVal)
  | jobj (fields : List (String × JVal))

/-- Modelled from Python truthiness of JSON values. -/
def veraz : JVal → Bool
  | .jnull => false
  | .jbool b => b
  | .jnum n => decide (n ≠ 0)
  | .jstr s => decide (s ≠ "")
  | .jarr l => !l.isEmpty
  | .jobj fs => !fs.isEmpty

/-- Modelled from Python `dict.get(k)` on a parsed JSON object (None when
absent). -/
def jGet (fs : List (String × JVal)) (k : String) : JVal :=
  match fs with
  | [] => .jnull
  | (a, v) :: resto => if a = k then v else jGet resto k

/-- Modelled from the Python builtin `str` on JSON values; the exact
rendering of containers is not reproduced (no claim depends on it). -/
def comoStr : JVal → String
  | .jnull => "None"
  | .jbool true => "True"
  | .jbool false => "False"
  | .jnum n => toString n
  | .jstr s => s
  | .jarr _ => "[...]"
  | .jobj _ => "..."

/-- Modelled from a Python `a or b or ...` chain: the first truthy value,
else the default. -/
def primerVeraz (dflt : JVal) : List JVal → JVal
  | [] => dflt
  | v :: resto => if veraz v then v else primerVeraz dflt resto

/-- Modelled from Python `==` between a JSON value and a string literal
(a non-string JSON value never equals a string). -/
def esIgualStr (v : JVal) (s : String) : Bool :=
  match v with
  | .jstr t => t == s
  | _ => false

/-- Embedded from `get_visitor_id` (lines 14-24).  `.get` on a truthy
non-object raises AttributeError, modelled by `Except.error`. -/
def get_visitor_id (payload : JVal) : Except String String :=
  match payload with
  | .jobj fs =>
    match (if veraz (jGet fs "visitor") then jGet fs "visitor" else JVal.jobj []) with
    | .jobj vfs =>
      .ok (comoStr (primerVeraz (.jstr "anon")
        [jGet vfs "id", jGet vfs "visitor_id", jGet vfs "email",
         jGet vfs "phone", jGet vfs "ip"]))
    | _ => .error "AttributeError"
  | _ => .error "AttributeError"

/-- Embedded from lines 146-153 of `extraer_mensaje`: the message text of
the located message object; dict messages read `text` then `value`,
string messages are stripped, any other shape yields the empty string. -/
def texto_de_msg : JVal → String
  | .jobj mfs =>
    pyStrip (comoStr (primerVeraz (.jstr "") [jGet mfs "text", jGet mfs "value"]))
  | .jstr s => pyStrip s
  | _ => ""

/-- Embedded from `extraer_mensaje` (lines 133-153): root-level `message`
preferred, fallback to `request.message`; the final isinstance dispatch
is `texto_de_msg`. -/
def extraer_mensaje (payload : JVal) : Except String String :=
  match payload with
  | .jobj fs =>
    let msg0 := jGet fs "message"
    let msgE : Except String JVal :=
      if veraz msg0 then .ok msg0
      else
        match (if veraz (jGet fs "request") then jGet fs "request" else JVal.jobj []) with
        | .jobj rfs => .ok (jGet rfs "message")
        | _ => .error "AttributeError"
    match msgE with
    | .error e => .error e
    | .ok msgObj => .ok (texto_de_msg msgObj)
  | _ => .error "AttributeError"

/-- Los diez campos del formulario de cotización (el dict `campos`,
lines 226-237). -/
structure Campos where
  empresa : String
  giro : String
  rut : String
  contacto : String
  correo : String
  telefono : String
  num_parte : String
  marca : String
  cantidad : String
  direccion_entrega : String
  deriving DecidableEq

/-- El dict `campos` inicial: los diez campos en blanco. -/
def campos_iniciales : Campos := ⟨"", "", "", "", "", "", "", "", "", ""⟩

/-- Modelled from `linea.split(":", 1)[0]`: lo anterior al primer `:`
(source line 242). -/
def etiqueta_de (linea : String) : String :=
  String.mk (linea.toList.takeWhile (fun c => c ≠ ':'))

/-- Modelled from `linea.split(":", 1)[1].strip()`: lo posterior al primer
`:`, recortado (source lines 242-244). -/
def valor_de (linea : String) : String :=
  pyStrip (String.mk ((linea.toList.dropWhile (fun c => c ≠ ':')).tail))

/-- Embedded from the parsing loop of `manejar_flujo_cotizacion_bloque`
(lines 239-267): one iteration of the for-loop over the lines.  The local
variables `etiqueta_norm` and `valor` of the source are written inline as
`normalizar_texto (etiqueta_de linea)` and `valor_de linea`. -/
def asignar_linea (campos : Campos) (linea : String) : Campos :=
  if !(linea.toList.contains ':') then campos
  else if contiene "empresa" (normalizar_texto (etiqueta_de linea)) then
    { campos with empresa := valor_de linea }
  else if contiene "giro" (normalizar_texto (etiqueta_de linea)) then
    { campos with giro := valor_de linea }
  else if normalizar_texto (etiqueta_de linea) == "rut"
      || normalizar_texto (etiqueta_de linea) == "r.u.t"
      || normalizar_texto (etiqueta_de linea) == "r u t" then
    { campos with rut := valor_de linea }
  else if contiene "contacto" (normalizar_texto (etiqueta_de linea)) then
    { campos with contacto := valor_de linea }
  else if contiene "correo" (normalizar_texto (etiqueta_de linea))
      || contiene "email" (normalizar_texto (etiqueta_de linea)) then
    { campos with correo := valor_de linea }
  else if contiene "telefono" (normalizar_texto (etiqueta_de linea))
      || contiene "teléfono" (normalizar_texto (etiqueta_de linea)) then
    { campos with telefono := valor_de linea }
  else if contiene "numero de parte" (normalizar_texto (etiqueta_de linea))
      || contiene "número de parte" (normalizar_texto (etiqueta_de linea))
      || contiene "descripcion" (normalizar_texto (etiqueta_de linea)) then
    { campos with num_parte := valor_de linea }
  else if contiene "marca" (normalizar_texto (etiqueta_de linea)) then
    { campos with marca := valor_de linea }
  else if contiene "cantidad" (normalizar_texto (etiqueta_de linea)) then
    { campos with cantidad := valor_de linea }
  else if contiene "direccion de entrega" (normalizar_texto (etiqueta_de linea))
      || contiene "dirección de entrega" (normalizar_texto (etiqueta_de linea)) then
    { campos with direccion_entrega := valor_de linea }
  else campos

/-- El dict `campos` que produce el bucle de parseo para un mensaje. -/
def campos_de_texto (texto : String) : Campos :=
  (partirLineas [] texto.toList).foldl asignar_linea campos_iniciales

/-- Los pares clave-valor del dict `campos` en su orden de inserción
(para `data.update(campos)`, line 270). -/
def camposPares (c : Campos) : List (String × String) :=
  [("empresa", c.empresa), ("giro", c.giro), ("rut", c.rut),
   ("contacto", c.contacto), ("correo", c.correo), ("telefono", c.telefono),
   ("num_parte", c.num_parte), ("marca", c.marca), ("cantidad", c.cantidad),
   ("direccion_entrega", c.direccion_entrega)]

/-- La plantilla literal del formulario (lines 169-182). -/
def formulario_cotizacion : String :=
  "Perfecto, trabajaremos en su solicitud de cotización.\n" ++
  "Por favor responda copiando y completando este formulario en un solo mensaje:\n\n" ++
  "Nombre de la empresa:\n" ++
  "Giro:\n" ++
  "RUT:\n" ++
  "Nombre de contacto:\n" ++
  "Correo:\n" ++
  "Teléfono:\n" ++
  "Número de parte o descripción detallada:\n" ++
  "Marca:\n" ++
  "Cantidad:\n" ++
  "Dirección de entrega:"

/-- La tarjeta select del menú principal. -/
def tarjeta_menu : InputCard :=
  ⟨"select", ["Solicitud Cotización", "Servicio PostVenta"]⟩

/-- Embedded from `manejar_menu_principal` (lines 156-213). -/
def manejar_menu_principal (session : Session) (message_text : String) : Session × Reply :=
  let texto_norm := normalizar_texto message_text
  if contiene "cotiz" texto_norm || contiene "solicitud cotizacion" texto_norm
      || texto_norm == "cotizacion" then
    ({ session with state := "cotizacion_bloque" },
      build_reply [formulario_cotizacion] none)
  else if contiene "postventa" texto_norm || contiene "post venta" texto_norm
      || contiene "servicio postventa" texto_norm then
    ({ session with state := "postventa_nombre" },
      build_reply ["Perfecto, trabajaremos en su solicitud de postventa.",
                   "Por favor, indique su nombre:"] none)
  else
    (session,
      build_reply ["No he podido identificar la opción.",
                   "Seleccione una de las siguientes opciones:"] (some tarjeta_menu))

/-- El resumen literal de la cotización (lines 272-284). -/
def resumen_cotizacion (c : Campos) : String :=
  "Resumen de su solicitud de cotización:\n" ++
  "Nombre de la empresa: " ++ c.empresa ++ "\n" ++
  "Giro: " ++ c.giro ++ "\n" ++
  "RUT: " ++ c.rut ++ "\n" ++
  "Nombre de contacto: " ++ c.contacto ++ "\n" ++
  "Correo: " ++ c.correo ++ "\n" ++
  "Teléfono: " ++ c.telefono ++ "\n" ++
  "Número de parte / descripción: " ++ c.num_parte ++ "\n" ++
  "Marca: " ++ c.marca ++ "\n" ++
  "Cantidad: " ++ c.cantidad ++ "\n" ++
  "Dirección de entrega: " ++ c.direccion_entrega

/-- Embedded from `manejar_flujo_cotizacion_bloque` (lines 216-298); the
guard `message_text or ""` is the identity on strings and is dropped. -/
def manejar_flujo_cotizacion_bloque (session : Session) (message_text : String) :
    Session × Reply :=
  let campos := campos_de_texto message_text
  let data1 := datosActualiza session.data (camposPares campos)
  ({ state := "menu_principal", data := data1 },
    { action := "reply",
      replies := ["Gracias. Hemos registrado su solicitud con el siguiente detalle:",
                  resumen_cotizacion campos,
                  "Un ejecutivo de Selec se pondrá en contacto con usted."],
      input := none })

/-- Modelled from an f-string interpolation of `data.get(k)` (a missing
key interpolates as "None"). -/
def datosGetStr (d : Datos) (k : String) : String :=
  match datosBusca d k with
  | some v => v
  | none => "None"

/-- El resumen literal de la postventa (lines 323-329). -/
def resumen_postventa (d : Datos) : String :=
  "Resumen de su solicitud de postventa:\n" ++
  "Nombre: " ++ datosGetStr d "nombre" ++ "\n" ++
  "RUT: " ++ datosGetStr d "rut" ++ "\n" ++
  "Número de factura: " ++ datosGetStr d "numero_factura" ++ "\n" ++
  "Detalle: " ++ datosGetStr d "detalle"

/-- Embedded from `manejar_flujo_postventa` (lines 301-348). -/
def manejar_flujo_postventa (session : Session) (message_text : String) :
    Session × Reply :=
  let data := session.data
  let state := session.state
  if state == "postventa_nombre" then
    ({ state := "postventa_rut", data := datosPon data "nombre" message_text },
      build_reply ["Indique su RUT:"] none)
  else if state == "postventa_rut" then
    ({ state := "postventa_numero_factura", data := datosPon data "rut" message_text },
      build_reply ["Indique el número de factura (si lo tiene):"] none)
  else if state == "postventa_numero_factura" then
    ({ state := "postventa_detalle", data := datosPon data "numero_factura" message_text },
      build_reply ["Describa brevemente el problema o solicitud de postventa:"] none)
  else if state == "postventa_detalle" then
    let data1 := datosPon data "detalle" message_text
    ({ state := "menu_principal", data := data1 },
      { action := "reply",
        replies := ["Gracias. Hemos registrado su solicitud de postventa con el siguiente detalle:",
                    resumen_postventa data1,
                    "Un ejecutivo se pondrá en contacto con usted."],
        input := none })
  else
    ({ state := "menu_principal", data := data },
      build_reply ["Ha ocurrido un problema con la conversación.",
                   "Volvamos al inicio. ¿Desea \x27Solicitud Cotización\x27 o \x27Servicio PostVenta\x27?"] none)

/-- Embedded from the `handler == "message"` branch of `salesiq_webhook`
(lines 102-127): dispatch on the current state, with the generic fallback
for unknown states. -/
def despachar_mensaje (session : Session) (message_text : String) : Session × Reply :=
  let state := session.state
  if state == "menu_principal" || state == "inicio" then
    manejar_menu_principal session message_text
  else if state == "cotizacion_bloque" then
    manejar_flujo_cotizacion_bloque session message_text
  else if empiezaCon state "postventa_" then
    manejar_flujo_postventa session message_text
  else
    ({ session with state := "menu_principal" },
      build_reply ["No he comprendido su mensaje.",
                   "Por favor, indique si desea \x27Solicitud Cotización\x27 o \x27Servicio PostVenta\x27."] none)

/-- La respuesta del evento trigger (lines 86-98). -/
def respuesta_trigger : Reply :=
  build_reply ["¡Bienvenido! Gracias por contactar con Selec.",
               "Por favor, seleccione una de las siguientes opciones para atender su solicitud."]
    (some tarjeta_menu)

/-- Embedded from the POST branch of `salesiq_webhook` (lines 69-130).
The guard `request.get_json(...) or {}` is the truthiness default on the
first line; the first `payload.get` raises AttributeError unless the
defaulted payload is an object, captured by the outer match (the unused
read of `operation`, line 71, cannot raise on an object and is dropped). -/
def salesiq_webhook (sessions : Almacen) (payload0 : JVal) :
    Except String (Almacen × Reply) :=
  let payload := if veraz payload0 then payload0 else JVal.jobj []
  match payload with
  | .jobj fs =>
    let handler := jGet fs "handler"
    match get_visitor_id (JVal.jobj fs) with
    | .error e => .error e
    | .ok visitor_id =>
      let sd := setdefaultSesion sessions visitor_id sesion_inicial
      let session := sd.1
      let sessions1 := sd.2
      if esIgualStr handler "trigger" then
        .ok (almacenPon sessions1 visitor_id { session with state := "menu_principal" },
             respuesta_trigger)
      else if esIgualStr handler "message" then
        match extraer_mensaje (JVal.jobj fs) with
        | .error e => .error e
        | .ok message_text =>
          let sr := despachar_mensaje session message_text
          .ok (almacenPon sessions1 visitor_id sr.1, sr.2)
      else
        .ok (sessions1, build_reply ["He recibido su mensaje."] none)
  | _ => .error "AttributeError"

/-- El almacén que resulta de manejar un evento trigger para `visitor_id`. -/
def tras_trigger (sessions : Almacen) (visitor_id : String) : Almacen :=
  let sd := setdefaultSesion sessions visitor_id sesion_inicial
  almacenPon sd.2 visitor_id { sd.1 with state := "menu_principal" }

/-- Los siete estados conocidos de la máquina de conversación (spec §4.4). -/
def estados_conocidos : List String :=
  ["inicio", "menu_principal", "cotizacion_bloque", "postventa_nombre",
   "postventa_rut", "postventa_numero_factura", "postventa_detalle"]

/-- Los diez campos del formulario, como enumeración (para enunciar las
propiedades del parser). -/
inductive Campo where
  | empresa
  | giro
  | rut
  | contacto
  | correo
  | telefono
  | num_parte
  | marca
  | cantidad
  | direccion_entrega
  deriving DecidableEq

/-- Proyección de un campo del registro `Campos`. -/
def getCampo (c : Campos) : Campo → String
  | .empresa => c.empresa
  | .giro => c.giro
  | .rut => c.rut
  | .contacto => c.contacto
  | .correo => c.correo
  | .telefono => c.telefono
  | .num_parte => c.num_parte
  | .marca => c.marca
  | .cantidad => c.cantidad
  | .direccion_entrega => c.direccion_entrega

/-- Actualización de un campo del registro `Campos`. -/
def setCampo (c : Campos) (f : Campo) (v : String) : Campos :=
  match f with
  | .empresa => { c with empresa := v }
  | .giro => { c with giro := v }
  | .rut => { c with rut := v }
  | .contacto => { c with contacto := v }
  | .correo => { c with correo := v }
  | .telefono => { c with telefono := v }
  | .num_parte => { c with num_parte := v }
  | .marca => { c with marca := v }
  | .cantidad => { c with cantidad := v }
  | .direccion_entrega => { c with direccion_entrega := v }

/-- Written from the amended claim C2: the field a normalized label is
assigned to, first match in the if/elif order of the source; every field
matches by substring except the tax id, which matches only the exact
labels "rut", "r.u.t" and "r u t". -/
def etiqueta_objetivo (e : String) : Option Campo :=
  if contiene "empresa" e then some .empresa
  else if contiene "giro" e then some .giro
  else if e == "rut" || e == "r.u.t" || e == "r u t" then some .rut
  else if contiene "contacto" e then some .contacto
  else if contiene "correo" e || contiene "email" e then some .correo
  else if contiene "telefono" e || contiene "teléfono" e then some .telefono
  else if contiene "numero de parte" e || contiene "número de parte" e
      || contiene "descripcion" e then some .num_parte
  else if contiene "marca" e then some .marca
  else if contiene "cantidad" e then some .cantidad
  else if contiene "direccion de entrega" e || contiene "dirección de entrega" e then
    some .direccion_entrega
  else none

/-- Si una línea del formulario asigna el campo `f`. -/
def lineaAsigna (f : Campo) (linea : String) : Bool :=
  linea.toList.contains ':' &&
    (etiqueta_objetivo (normalizar_texto (etiqueta_de linea)) == some f)

/-- Las claves del dict `campos` dentro de `session.data` (claim C10). -/
def claves_formulario : List String :=
  ["empresa", "giro", "rut", "contacto", "correo", "telefono",
   "num_parte", "marca", "cantidad", "direccion_entrega"]

/-- El campo del registro `Campos` guardado bajo cada clave del dict. -/
def campoPorClave (c : Campos) (k : String) : String :=
  if k == "empresa" then c.empresa
  else if k == "giro" then c.giro
  else if k == "rut" then c.rut
  else if k == "contacto" then c.contacto
  else if k == "correo" then c.correo
  else if k == "telefono" then c.telefono
  else if k == "num_parte" then c.num_parte
  else if k == "marca" then c.marca
  else if k == "cantidad" then c.cantidad
  else c.direccion_entrega

/-- Written from the amended claim C9: the payload (after the `or {}`
default), its `visitor` field and its `request` field are objects whenever
they are truthy, so no attribute access can raise. -/
def payloadSeguro (p : JVal) : Bool :=
  match (if veraz p then p else JVal.jobj []) with
  | .jobj fs =>
    (match jGet fs "visitor" with
     | .jobj _ => true
     | v => !veraz v) &&
    (match jGet fs "request" with
     | .jobj _ => true
     | v => !veraz v)
  | _ => false

/-- Si el resultado del webhook es una respuesta bien formada con una
secuencia `replies` no vacía. -/
def respuesta_valida : Except String (Almacen × Reply) → Bool
  | .ok (_, r) => !r.replies.isEmpty
  | .error _ => false

lemma toList_append (s t : String) : (s ++ t).toList = s.toList ++ t.toList :=
  String.data_append s t

lemma isPrefixOf_append_self (l t : List Char) : l.isPrefixOf (l ++ t) = true := by
  induction l with
  | nil => simp [List.isPrefixOf]
  | cons a l ih => simp [List.isPrefixOf, ih]

lemma esSubListaDe_append (x pre suf : List Char) :
    esSubListaDe x (pre ++ (x ++ suf)) = true := by
  induction pre with
  | nil =>
    cases hx : x with
    | nil =>
      cases suf with
      | nil => rfl
      | cons c r => simp [esSubListaDe, List.isPrefixOf]
    | cons c r =>
      have : (c :: r) ++ suf = c :: (r ++ suf) := rfl
      simp only [List.nil_append, this, esSubListaDe]
      have h := isPrefixOf_append_self (c :: r) suf
      simp only [List.cons_append] at h
      simp [h]
  | cons a pre ih => simp [esSubListaDe, ih]

lemma esSubListaDe_de_infijo (x l : List Char) (h : x <:+: l) :
    esSubListaDe x l = true := by
  obtain ⟨pre, suf, rfl⟩ := h
  have : pre ++ x ++ suf = pre ++ (x ++ suf) := by simp
  rw [this]
  exact esSubListaDe_append x pre suf

lemma contiene_pedazo (x a b : String) : contiene x (a ++ x ++ b) = true := by
  unfold contiene
  apply esSubListaDe_de_infijo
  rw [toList_append, toList_append]
  exact List.infix_append _ _ _

lemma datosBusca_pon_igual (d : Datos) (k v : String) :
    datosBusca (datosPon d k v) k = some v := by
  induction d with
  | nil => simp [datosPon, datosBusca]
  | cons p resto ih =>
    obtain ⟨a, b⟩ := p
    by_cases h : a = k
    · simp [datosPon, datosBusca, h]
    · simp [datosPon, datosBusca, h, ih]

lemma datosBusca_pon_distinto (d : Datos) (a k v : String) (h : k ≠ a) :
    datosBusca (datosPon d a v) k = datosBusca d k := by
  induction d with
  | nil => simp [datosPon, datosBusca, Ne.symm h]
  | cons p resto ih =>
    obtain ⟨x, y⟩ := p
    by_cases hx : x = a
    · subst hx
      simp [datosPon, datosBusca, Ne.symm h]
    · simp [datosPon, datosBusca, hx, ih]

lemma almacenBusca_pon_igual (st : Almacen) (k : String) (s : Session) :
    almacenBusca (almacenPon st k s) k = some s := by
  induction st with
  | nil => simp [almacenPon, almacenBusca]
  | cons p resto ih =>
    obtain ⟨a, b⟩ := p
    by_cases h : a = k
    · simp [almacenPon, almacenBusca, h]
    · simp [almacenPon, almacenBusca, h, ih]

lemma almacenBusca_append_de_busca (st : Almacen) (k : String) (s : Session)
    (cola : Almacen) (h : almacenBusca st k = some s) :
    almacenBusca (st ++ cola) k = some s := by
  induction st with
  | nil => simp [almacenBusca] at h
  | cons p resto ih =>
    obtain ⟨a, b⟩ := p
    by_cases ha : a = k
    · simp [almacenBusca, ha] at h ⊢
      exact h
    · simp [almacenBusca, ha] at h ⊢
      exact ih h

lemma getCampo_setCampo (c : Campos) (f g : Campo) (v : String) :
    getCampo (setCampo c f v) g = if g = f then v else getCampo c g := by
  cases f <;> cases g <;> simp [getCampo, setCampo]

lemma asignar_linea_carac (c : Campos) (l : String) :
    asignar_linea c l =
      if l.toList.contains ':' then
        match etiqueta_objetivo (normalizar_texto (etiqueta_de l)) with
        | some f => setCampo c f (valor_de l)
        | none => c
      else c := by
  by_cases h : l.toList.contains ':' = true
  · rw [if_pos h]
    unfold asignar_linea etiqueta_objetivo
    rw [h, Bool.not_true, if_neg (by decide : ¬ (false = true))]
    by_cases h1 : contiene "empresa" (normalizar_texto (etiqueta_de l)) = true
    · rw [if_pos h1, if_pos h1]; rfl
    · rw [if_neg h1, if_neg h1]
      by_cases h2 : contiene "giro" (normalizar_texto (etiqueta_de l)) = true
      · rw [if_pos h2, if_pos h2]; rfl
      · rw [if_neg h2, if_neg h2]
        by_cases h3 : (normalizar_texto (etiqueta_de l) == "rut"
            || normalizar_texto (etiqueta_de l) == "r.u.t"
            || normalizar_texto (etiqueta_de l) == "r u t") = true
        · rw [if_pos h3, if_pos h3]; rfl
        · rw [if_neg h3, if_neg h3]
          by_cases h4 : contiene "contacto" (normalizar_texto (etiqueta_de l)) = true
          · rw [if_pos h4, if_pos h4]; rfl
          · rw [if_neg h4, if_neg h4]
            by_cases h5 : (contiene "correo" (normalizar_texto (etiqueta_de l))
                || contiene "email" (normalizar_texto (etiqueta_de l))) = true
            · rw [if_pos h5, if_pos h5]; rfl
            · rw [if_neg h5, if_neg h5]
              by_cases h6 : (contiene "telefono" (normalizar_texto (etiqueta_de l))
                  || contiene "teléfono" (normalizar_texto (etiqueta_de l))) = true
              · rw [if_pos h6, if_pos h6]; rfl
              · rw [if_neg h6, if_neg h6]
                by_cases h7 : (contiene "numero de parte" (normalizar_texto (etiqueta_de l))
                    || contiene "número de parte" (normalizar_texto (etiqueta_de l))
                    || contiene "descripcion" (normalizar_texto (etiqueta_de l))) = true
                · rw [if_pos h7, if_pos h7]; rfl
                · rw [if_neg h7, if_neg h7]
                  by_cases h8 : contiene "marca" (normalizar_texto (etiqueta_de l)) = true
                  · rw [if_pos h8, if_pos h8]; rfl
                  · rw [if_neg h8, if_neg h8]
                    by_cases h9 : contiene "cantidad" (normalizar_texto (etiqueta_de l)) = true
                    · rw [if_pos h9, if_pos h9]; rfl
                    · rw [if_neg h9, if_neg h9]
                      by_cases h10 : (contiene "direccion de entrega" (normalizar_texto (etiqueta_de l))
                          || contiene "dirección de entrega" (normalizar_texto (etiqueta_de l))) = true
                      · rw [if_pos h10, if_pos h10]; rfl
                      · rw [if_neg h10, if_neg h10]
  · have hf : l.toList.contains ':' = false := by simpa using h
    rw [if_neg h]
    unfold asignar_linea
    rw [hf, Bool.not_false, if_pos rfl]

lemma getCampo_asignar_si (c : Campos) (l : String) (f : Campo)
    (h : lineaAsigna f l = true) :
    getCampo (asignar_linea c l) f = valor_de l := by
  have h' : l.toList.contains ':' = true ∧
      etiqueta_objetivo (normalizar_texto (etiqueta_de l)) = some f := by
    simpa [lineaAsigna] using h
  rw [asignar_linea_carac, if_pos h'.1, h'.2]
  simp [getCampo_setCampo]

lemma getCampo_asignar_no (c : Campos) (l : String) (f : Campo)
    (h : lineaAsigna f l = false) :
    getCampo (asignar_linea c l) f = getCampo c f := by
  rw [asignar_linea_carac]
  by_cases h1 : l.toList.contains ':'
  · rw [if_pos h1]
    cases hob : etiqueta_objetivo (normalizar_texto (etiqueta_de l)) with
    | none => rfl
    | some g =>
      have hfg : f ≠ g := by
        intro hfg
        subst hfg
        simp only [lineaAsigna, h1, hob] at h
        simp at h
      simp [getCampo_setCampo, hfg]
  · rw [if_neg h1]

lemma foldl_asignar_ultimo (ls : List String) (c : Campos) (f : Campo) :
    getCampo (ls.foldl asignar_linea c) f =
      match (ls.filter (lineaAsigna f)).getLast? with
      | some l => valor_de l
      | none => getCampo c f := by
  induction ls generalizing c with
  | nil => rfl
  | cons l ls ih =>
    rw [List.foldl_cons, ih (asignar_linea c l)]
    by_cases h : lineaAsigna f l = true
    · rw [List.filter_cons_of_pos h]
      cases hf : (ls.filter (lineaAsigna f)).getLast? with
      | none =>
        have hnil : ls.filter (lineaAsigna f) = [] := by
          cases hfl : ls.filter (lineaAsigna f) with
          | nil => rfl
          | cons a t =>
            rw [hfl] at hf
            cases t <;> simp [List.getLast?] at hf
        rw [hnil]
        simp [List.getLast?, getCampo_asignar_si c l f h]
      | some l2 =>
        have hne : ls.filter (lineaAsigna f) ≠ [] := by
          intro hnil
          rw [hnil] at hf
          simp at hf
        obtain ⟨a, t, hat⟩ := List.exists_cons_of_ne_nil hne
        rw [hat] at hf ⊢
        rw [List.getLast?_cons_cons, hf]
    · have hfalse : lineaAsigna f l = false := by
        simpa using h
      rw [List.filter_cons_of_neg (by simp [hfalse]),
        getCampo_asignar_no c l f hfalse]

lemma estado_menu (s : Session) (t : String) :
    (manejar_menu_principal s t).1.state = "cotizacion_bloque" ∨
    (manejar_menu_principal s t).1.state = "postventa_nombre" ∨
    (manejar_menu_principal s t).1 = s := by
  simp only [manejar_menu_principal]
  split_ifs <;> simp

lemma estado_cotizacion (s : Session) (t : String) :
    (manejar_flujo_cotizacion_bloque s t).1.state = "menu_principal" := rfl

lemma estado_postventa (s : Session) (t : String) :
    (manejar_flujo_postventa s t).1.state = "postventa_rut" ∨
    (manejar_flujo_postventa s t).1.state = "postventa_numero_factura" ∨
    (manejar_flujo_postventa s t).1.state = "postventa_detalle" ∨
    (manejar_flujo_postventa s t).1.state = "menu_principal" := by
  simp only [manejar_flujo_postventa]
  split_ifs <;> simp

lemma postventa_desconocido (s : Session) (t : String)
    (h1 : s.state ≠ "postventa_nombre") (h2 : s.state ≠ "postventa_rut")
    (h3 : s.state ≠ "postventa_numero_factura") (h4 : s.state ≠ "postventa_detalle") :
    manejar_flujo_postventa s t =
      ({ state := "menu_principal", data := s.data },
        build_reply ["Ha ocurrido un problema con la conversación.",
                     "Volvamos al inicio. ¿Desea \x27Solicitud Cotización\x27 o \x27Servicio PostVenta\x27?"] none) := by
  simp [manejar_flujo_postventa, beq_iff_eq, h1, h2, h3, h4]

lemma respuestas_menu (s : Session) (t : String) :
    (manejar_menu_principal s t).2.replies ≠ [] := by
  simp only [manejar_menu_principal, build_reply]
  split_ifs <;> simp

lemma respuestas_cotizacion (s : Session) (t : String) :
    (manejar_flujo_cotizacion_bloque s t).2.replies ≠ [] := by
  simp [manejar_flujo_cotizacion_bloque]

lemma respuestas_postventa (s : Session) (t : String) :
    (manejar_flujo_postventa s t).2.replies ≠ [] := by
  simp only [manejar_flujo_postventa, build_reply]
  split_ifs <;> simp

lemma respuestas_despacho (s : Session) (t : String) :
    (despachar_mensaje s t).2.replies ≠ [] := by
  simp only [despachar_mensaje]
  split_ifs with hA hB hC
  · exact respuestas_menu s t
  · exact respuestas_cotizacion s t
  · exact respuestas_postventa s t
  · simp [build_reply]

lemma esSubListaDe_nil (l : List Char) : esSubListaDe [] l = true := by
  cases l <;> simp [esSubListaDe, List.isPrefixOf]

lemma isPrefixOf_extiende (x l t : List Char) (h : x.isPrefixOf l = true) :
    x.isPrefixOf (l ++ t) = true := by
  induction x generalizing l with
  | nil => simp [List.isPrefixOf]
  | cons a as ih =>
    cases l with
    | nil => simp [List.isPrefixOf] at h
    | cons b bs =>
      simp only [List.isPrefixOf, List.cons_append, Bool.and_eq_true] at h ⊢
      exact ⟨h.1, ih bs h.2⟩

lemma esSubListaDe_append_izq (x s t : List Char) (h : esSubListaDe x s = true) :
    esSubListaDe x (s ++ t) = true := by
  induction s with
  | nil =>
    have hx : x = [] := by
      cases x with
      | nil => rfl
      | cons a as => simp [esSubListaDe] at h
    rw [hx]
    simp [esSubListaDe_nil]
  | cons c s ih =>
    simp only [esSubListaDe, Bool.or_eq_true] at h
    rcases h with h | h
    · have := isPrefixOf_extiende x (c :: s) t h
      simp only [List.cons_append, esSubListaDe, Bool.or_eq_true]
      exact Or.inl (by simpa using this)
    · simp only [List.cons_append, esSubListaDe, Bool.or_eq_true]
      exact Or.inr (ih h)

lemma esSubListaDe_append_der (x s t : List Char) (h : esSubListaDe x t = true) :
    esSubListaDe x (s ++ t) = true := by
  induction s with
  | nil => simpa using h
  | cons c s ih => simp [esSubListaDe, ih]

lemma isPrefixOf_propio (l : List Char) : l.isPrefixOf l = true := by
  have h := isPrefixOf_append_self l []
  rwa [List.append_nil] at h

lemma contiene_propio (x : String) : contiene x x = true := by
  unfold contiene
  cases hx : x.toList with
  | nil => rfl
  | cons c r => simp [esSubListaDe, isPrefixOf_propio]

lemma contiene_append_izq (x s t : String) (h : contiene x s = true) :
    contiene x (s ++ t) = true := by
  unfold contiene at h ⊢
  rw [toList_append]
  exact esSubListaDe_append_izq _ _ _ h

lemma contiene_append_der (x s t : String) (h : contiene x t = true) :
    contiene x (s ++ t) = true := by
  unfold contiene at h ⊢
  rw [toList_append]
  exact esSubListaDe_append_der _ _ _ h

/-- Claim C1: from state `menu_principal` or `inicio`, a message whose
normalized text contains the substring "cotiz" moves the session to
`cotizacion_bloque` and the reply is exactly the one-element sequence
holding the fixed form template.  No hypothesis excludes "postventa"
from the text, so a message containing both substrings takes the quote
branch: the check comes first. -/
theorem claim_C1 (s : Session) (t : String)
    (hestado : s.state = "menu_principal" ∨ s.state = "inicio")
    (hcot : contiene "cotiz" (normalizar_texto t) = true) :
    despachar_mensaje s t =
      ({ s with state := "cotizacion_bloque" },
        build_reply [formulario_cotizacion] none) := by
  have hcond : (s.state == "menu_principal" || s.state == "inicio") = true := by
    rcases hestado with h | h <;> simp [h]
  simp only [despachar_mensaje, hcond, if_true]
  simp only [manejar_menu_principal, hcot, Bool.true_or, if_true]

/-- Witness for C1: a concrete message that contains both "cotiz" and
"postventa" takes the quote branch. -/
theorem claim_C1_witness :
    contiene "cotiz" (normalizar_texto "Quiero una Cotización de postventa") = true ∧
    contiene "postventa" (normalizar_texto "Quiero una Cotización de postventa") = true ∧
    despachar_mensaje ⟨"menu_principal", []⟩ "Quiero una Cotización de postventa" =
      (⟨"cotizacion_bloque", []⟩, build_reply [formulario_cotizacion] none) :=
  ⟨by decide, by decide,
    claim_C1 ⟨"menu_principal", []⟩ "Quiero una Cotización de postventa"
      (Or.inl rfl) (by decide)⟩

/-- Claim C6: each `postventa_*` state stores the raw message verbatim
under its key and advances along the fixed linear order; the final state
stores `detalle`, replies with the summary of the four stored values and
returns to `menu_principal`.  The last conjunct: each stored value occurs
in the summary text. -/
theorem claim_C6 (d : Datos) (m : String) :
    manejar_flujo_postventa ⟨"postventa_nombre", d⟩ m =
      (⟨"postventa_rut", datosPon d "nombre" m⟩,
        build_reply ["Indique su RUT:"] none) ∧
    manejar_flujo_postventa ⟨"postventa_rut", d⟩ m =
      (⟨"postventa_numero_factura", datosPon d "rut" m⟩,
        build_reply ["Indique el número de factura (si lo tiene):"] none) ∧
    manejar_flujo_postventa ⟨"postventa_numero_factura", d⟩ m =
      (⟨"postventa_detalle", datosPon d "numero_factura" m⟩,
        build_reply ["Describa brevemente el problema o solicitud de postventa:"] none) ∧
    manejar_flujo_postventa ⟨"postventa_detalle", d⟩ m =
      (⟨"menu_principal", datosPon d "detalle" m⟩,
        { action := "reply",
          replies := ["Gracias. Hemos registrado su solicitud de postventa con el siguiente detalle:",
                      resumen_postventa (datosPon d "detalle" m),
                      "Un ejecutivo se pondrá en contacto con usted."],
          input := none }) ∧
    (∀ n r f, datosBusca d "nombre" = some n → datosBusca d "rut" = some r →
      datosBusca d "numero_factura" = some f →
      contiene n (resumen_postventa (datosPon d "detalle" m)) = true ∧
      contiene r (resumen_postventa (datosPon d "detalle" m)) = true ∧
      contiene f (resumen_postventa (datosPon d "detalle" m)) = true ∧
      contiene m (resumen_postventa (datosPon d "detalle" m)) = true) := by
  refine ⟨rfl, rfl, rfl, rfl, ?_⟩
  intro n r f hn hr hf
  have e1 : datosGetStr (datosPon d "detalle" m) "nombre" = n := by
    unfold datosGetStr
    rw [datosBusca_pon_distinto d "detalle" "nombre" m (by decide), hn]
  have e2 : datosGetStr (datosPon d "detalle" m) "rut" = r := by
    unfold datosGetStr
    rw [datosBusca_pon_distinto d "detalle" "rut" m (by decide), hr]
  have e3 : datosGetStr (datosPon d "detalle" m) "numero_factura" = f := by
    unfold datosGetStr
    rw [datosBusca_pon_distinto d "detalle" "numero_factura" m (by decide), hf]
  have e4 : datosGetStr (datosPon d "detalle" m) "detalle" = m := by
    unfold datosGetStr
    rw [datosBusca_pon_igual]
  refine ⟨?_, ?_, ?_, ?_⟩ <;>
  · simp only [resumen_postventa, e1, e2, e3, e4]
    repeat
      first
      | exact contiene_append_der _ _ _ (contiene_propio _)
      | apply contiene_append_izq

/-- Witness for C6 at the concrete spec example "Equipo no enciende". -/
theorem claim_C6_witness :
    contiene "Ana"
      (resumen_postventa (datosPon
        [("nombre", "Ana"), ("rut", "11.111.111-1"), ("numero_factura", "F-77")]
        "detalle" "Equipo no enciende")) = true ∧
    contiene "Equipo no enciende"
      (resumen_postventa (datosPon
        [("nombre", "Ana"), ("rut", "11.111.111-1"), ("numero_factura", "F-77")]
        "detalle" "Equipo no enciende")) = true ∧
    (manejar_flujo_postventa
      ⟨"postventa_detalle",
        [("nombre", "Ana"), ("rut", "11.111.111-1"), ("numero_factura", "F-77")]⟩
      "Equipo no enciende").1.state = "menu_principal" :=
  ⟨((claim_C6 [("nombre", "Ana"), ("rut", "11.111.111-1"), ("numero_factura", "F-77")]
      "Equipo no enciende").2.2.2.2 "Ana" "11.111.111-1" "F-77" rfl rfl rfl).1,
   ((claim_C6 [("nombre", "Ana"), ("rut", "11.111.111-1"), ("numero_factura", "F-77")]
      "Equipo no enciende").2.2.2.2 "Ana" "11.111.111-1" "F-77" rfl rfl rfl).2.2.2,
   by decide⟩

lemma datosBusca_pon (d : Datos) (a k v : String) :
    datosBusca (datosPon d a v) k = if k = a then some v else datosBusca d k := by
  by_cases h : k = a
  · subst h
    simp [datosBusca_pon_igual]
  · simp [h, datosBusca_pon_distinto d a k v h]

lemma datosBusca_actualiza_en (d : Datos) (c : Campos) (k : String)
    (hk : k ∈ claves_formulario) :
    datosBusca (datosActualiza d (camposPares c)) k = some (campoPorClave c k) := by
  fin_cases hk <;>
    simp [datosActualiza, camposPares, campoPorClave, List.foldl, datosBusca_pon]

/-- Claim C10: a message handled in state `cotizacion_bloque` overwrites
all ten quote-form keys of `session.data` with the freshly parsed values
(empty string for an absent label); since the key "rut" is shared with
the postventa flow, a quote without a RUT line leaves `data["rut"] = ""`
whatever was stored before, and a later `postventa_rut` answer likewise
overwrites the key. -/
theorem claim_C10 (d : Datos) (t m : String) :
    (∀ k, k ∈ claves_formulario →
      datosBusca ((manejar_flujo_cotizacion_bloque ⟨"cotizacion_bloque", d⟩ t).1.data) k =
        some (campoPorClave (campos_de_texto t) k)) ∧
    ((campos_de_texto t).rut = "" →
      datosBusca ((manejar_flujo_cotizacion_bloque ⟨"cotizacion_bloque", d⟩ t).1.data) "rut" =
        some "") ∧
    datosBusca ((manejar_flujo_postventa ⟨"postventa_rut", d⟩ m).1.data) "rut" = some m := by
  have hdata : (manejar_flujo_cotizacion_bloque ⟨"cotizacion_bloque", d⟩ t).1.data =
      datosActualiza d (camposPares (campos_de_texto t)) := rfl
  refine ⟨?_, ?_, ?_⟩
  · intro k hk
    rw [hdata]
    exact datosBusca_actualiza_en d _ k hk
  · intro h
    rw [hdata, datosBusca_actualiza_en d (campos_de_texto t) "rut" (by decide)]
    have hcv : campoPorClave (campos_de_texto t) "rut" = (campos_de_texto t).rut := by
      simp [campoPorClave]
    rw [hcv, h]
  · have hdata2 : (manejar_flujo_postventa ⟨"postventa_rut", d⟩ m).1.data =
        datosPon d "rut" m := rfl
    rw [hdata2, datosBusca_pon_igual]

/-- Witness for C10: a quote submission without a RUT line erases a
previously stored tax id, and a `postventa_rut` answer overwrites it. -/
theorem claim_C10_witness :
    ("rut" ∈ claves_formulario) ∧
    (campos_de_texto "Marca: X").rut = "" ∧
    datosBusca ((manejar_flujo_cotizacion_bloque
      ⟨"cotizacion_bloque", [("rut", "11.111.111-1")]⟩ "Marca: X").1.data) "rut" =
      some "" ∧
    datosBusca ((manejar_flujo_postventa
      ⟨"postventa_rut", [("rut", "")]⟩ "22.222.222-2").1.data) "rut" =
      some "22.222.222-2" :=
  ⟨by decide, by decide,
   (claim_C10 [("rut", "11.111.111-1")] "Marca: X" "x").2.1 (by decide),
   (claim_C10 [("rut", "")] "y" "22.222.222-2").2.2⟩

/-- Claim C8: when two or more lines of a quote submission assign the
same field, the parsed value of that field is the value of the last such
line (last write wins in the sequential for-loop). -/
theorem claim_C8 (t : String) (f : Campo)
    (h : 2 ≤ ((partirLineas [] t.toList).filter (lineaAsigna f)).length) :
    some (getCampo (campos_de_texto t) f) =
      ((partirLineas [] t.toList).filter (lineaAsigna f)).getLast?.map valor_de := by
  unfold campos_de_texto
  rw [foldl_asignar_ultimo]
  cases hlast : ((partirLineas [] t.toList).filter (lineaAsigna f)).getLast? with
  | none =>
    rw [List.getLast?_eq_none_iff] at hlast
    rw [hlast] at h
    simp at h
  | some l2 => simp

/-- Witness for C8: two "Marca:" lines; the later one wins. -/
theorem claim_C8_witness :
    2 ≤ ((partirLineas [] "Marca: A\nMarca: B".toList).filter (lineaAsigna Campo.marca)).length ∧
    (campos_de_texto "Marca: A\nMarca: B").marca = "B" ∧
    some (getCampo (campos_de_texto "Marca: A\nMarca: B") Campo.marca) =
      ((partirLineas [] "Marca: A\nMarca: B".toList).filter
        (lineaAsigna Campo.marca)).getLast?.map valor_de :=
  ⟨by decide, by decide, claim_C8 "Marca: A\nMarca: B" Campo.marca (by decide)⟩

/-- Counterexample to C2 as stated: the tax-id keyword "rut" occurs as a
substring of the normalized label of the line "Rut cliente: 9", the line
has a colon and a value, yet the parser assigns nothing at all (the whole
record stays initial): the tax-id labels match by equality, not by
substring. -/
theorem claim_C2_counterexample :
    contiene "rut" (normalizar_texto (etiqueta_de "Rut cliente: 9")) = true ∧
    "Rut cliente: 9".toList.contains ':' = true ∧
    valor_de "Rut cliente: 9" = "9" ∧
    campos_de_texto "Rut cliente: 9" = campos_iniciales :=
  ⟨by decide, by decide, by decide, by decide⟩

/-- C2 (amended): for each line with a colon the parser splits at the
first colon, normalizes the label and strips the value; the line updates
exactly the field selected by `etiqueta_objetivo` — first match in the
fixed order, substring match for every field except the tax id, which
matches only the exact normalized labels "rut", "r.u.t" and "r u t";
lines without a colon or with an unmatched label leave the record
unchanged; the whole form is the left fold over the split lines. -/
theorem claim_C2_enmendada (c : Campos) (l : String) (t : String) :
    (l.toList.contains ':' = false → asignar_linea c l = c) ∧
    (∀ f, l.toList.contains ':' = true →
      etiqueta_objetivo (normalizar_texto (etiqueta_de l)) = some f →
      asignar_linea c l = setCampo c f (valor_de l)) ∧
    (l.toList.contains ':' = true →
      etiqueta_objetivo (normalizar_texto (etiqueta_de l)) = none →
      asignar_linea c l = c) ∧
    campos_de_texto t = (partirLineas [] t.toList).foldl asignar_linea campos_iniciales := by
  refine ⟨?_, ?_, ?_, rfl⟩
  · intro h
    rw [asignar_linea_carac, if_neg (by rw [h]; simp)]
  · intro f h1 h2
    rw [asignar_linea_carac, if_pos h1, h2]
  · intro h1 h2
    rw [asignar_linea_carac, if_pos h1, h2]

/-- Witness for the amended C2 at the concrete line of the spec example. -/
theorem claim_C2_witness :
    ("Nombre de la empresa: Acme".toList.contains ':' = true) ∧
    etiqueta_objetivo (normalizar_texto (etiqueta_de "Nombre de la empresa: Acme")) =
      some Campo.empresa ∧
    asignar_linea campos_iniciales "Nombre de la empresa: Acme" =
      setCampo campos_iniciales Campo.empresa (valor_de "Nombre de la empresa: Acme") :=
  ⟨by decide, by decide,
   (claim_C2_enmendada campos_iniciales "Nombre de la empresa: Acme" "").2.1
     Campo.empresa (by decide) (by decide)⟩

/-- Claim C3: after dispatching any message event the session state lies
in the fixed known set of seven states; from any state outside the set
(unknown `postventa_`-prefixed strings included) the dispatcher falls
back to `menu_principal` with a non-empty reply. -/
theorem claim_C3 (s : Session) (t : String) :
    (despachar_mensaje s t).1.state ∈ estados_conocidos ∧
    (s.state ∉ estados_conocidos →
      (despachar_mensaje s t).1.state = "menu_principal" ∧
      (despachar_mensaje s t).2.replies ≠ []) := by
  constructor
  · simp only [despachar_mensaje]
    split_ifs with hA hB hC
    · rcases estado_menu s t with h | h | h
      · simp [h, estados_conocidos]
      · simp [h, estados_conocidos]
      · rw [h]
        have hA' : s.state = "menu_principal" ∨ s.state = "inicio" := by
          simpa using hA
        rcases hA' with h2 | h2 <;> simp [h2, estados_conocidos]
    · simp [estado_cotizacion, estados_conocidos]
    · rcases estado_postventa s t with h | h | h | h <;> simp [h, estados_conocidos]
    · simp [estados_conocidos]
  · intro hs
    have h1 : s.state ≠ "menu_principal" := fun h => hs (by rw [h]; decide)
    have h2 : s.state ≠ "inicio" := fun h => hs (by rw [h]; decide)
    have h3 : s.state ≠ "cotizacion_bloque" := fun h => hs (by rw [h]; decide)
    have h4 : s.state ≠ "postventa_nombre" := fun h => hs (by rw [h]; decide)
    have h5 : s.state ≠ "postventa_rut" := fun h => hs (by rw [h]; decide)
    have h6 : s.state ≠ "postventa_numero_factura" := fun h => hs (by rw [h]; decide)
    have h7 : s.state ≠ "postventa_detalle" := fun h => hs (by rw [h]; decide)
    have hA : (s.state == "menu_principal" || s.state == "inicio") = false := by
      simp [Bool.or_eq_false_iff, beq_eq_false_iff_ne, h1, h2]
    have hB : (s.state == "cotizacion_bloque") = false := by
      simp [beq_eq_false_iff_ne, h3]
    simp only [despachar_mensaje, hA, hB, Bool.false_eq_true, if_false]
    by_cases hC : empiezaCon s.state "postventa_" = true
    · simp only [hC, if_true]
      rw [postventa_desconocido s t h4 h5 h6 h7]
      exact ⟨by simp, by simp [build_reply]⟩
    · have hC' : empiezaCon s.state "postventa_" = false := by simpa using hC
      simp only [hC', Bool.false_eq_true, if_false]
      exact ⟨by simp, by simp [build_reply]⟩

/-- Witness for C3 at an unknown `postventa_`-prefixed state. -/
theorem claim_C3_witness :
    ("postventa_zzz" ∉ estados_conocidos) ∧
    (despachar_mensaje ⟨"postventa_zzz", []⟩ "hola").1.state = "menu_principal" ∧
    (despachar_mensaje ⟨"postventa_zzz", []⟩ "hola").2.replies ≠ [] ∧
    (despachar_mensaje ⟨"postventa_zzz", []⟩ "hola").1.state ∈ estados_conocidos :=
  ⟨by decide,
   ((claim_C3 ⟨"postventa_zzz", []⟩ "hola").2 (by decide)).1,
   ((claim_C3 ⟨"postventa_zzz", []⟩ "hola").2 (by decide)).2,
   (claim_C3 ⟨"postventa_zzz", []⟩ "hola").1⟩

/-- Counterexample to C4 as stated: a `context` event from a visitor not
yet in the store returns the generic acknowledgement, but the store is
NOT identical afterwards: `setdefault` (line 75, before the handler
check) has inserted a fresh default session for the visitor. -/
theorem claim_C4_counterexample :
    salesiq_webhook []
      (JVal.jobj [("handler", JVal.jstr "context"),
                  ("visitor", JVal.jobj [("id", JVal.jstr "v1")])]) =
      Except.ok ([("v1", sesion_inicial)],
        build_reply ["He recibido su mensaje."] none) ∧
    ([("v1", sesion_inicial)] : Almacen) ≠ [] :=
  ⟨rfl, by decide⟩

/-- C4 (amended): for any event whose handler is neither "trigger" nor
"message", the webhook answers the generic acknowledgement and no state
machine runs: every session already in the store keeps its state and
data; if the visitor is already known the store comes back identical;
for a new visitor, the only change is the fresh default session (state
"inicio", empty data) inserted by `setdefault`. -/
theorem claim_C4_enmendada (st : Almacen) (fs : List (String × JVal)) (vid : String)
    (hh1 : esIgualStr (jGet fs "handler") "trigger" = false)
    (hh2 : esIgualStr (jGet fs "handler") "message" = false)
    (hv : get_visitor_id (JVal.jobj fs) = Except.ok vid) :
    salesiq_webhook st (JVal.jobj fs) =
      Except.ok ((setdefaultSesion st vid sesion_inicial).2,
        build_reply ["He recibido su mensaje."] none) ∧
    (∀ k s0, almacenBusca st k = some s0 →
      almacenBusca (setdefaultSesion st vid sesion_inicial).2 k = some s0) ∧
    (almacenBusca st vid ≠ none → (setdefaultSesion st vid sesion_inicial).2 = st) := by
  have hnorm : (if veraz (JVal.jobj fs) then JVal.jobj fs else JVal.jobj []) =
      JVal.jobj fs := by
    cases fs <;> simp [veraz]
  refine ⟨?_, ?_, ?_⟩
  · simp only [salesiq_webhook, hnorm, hv, hh1, hh2, Bool.false_eq_true, if_false]
  · intro k s0 hs0
    unfold setdefaultSesion
    cases halm : almacenBusca st vid with
    | some s => exact hs0
    | none => exact almacenBusca_append_de_busca st k s0 [(vid, sesion_inicial)] hs0
  · intro hv2
    unfold setdefaultSesion
    cases halm : almacenBusca st vid with
    | some s => rfl
    | none => exact absurd halm hv2

/-- Witness for the amended C4: a `context` event for a visitor already
in the store leaves the store untouched. -/
theorem claim_C4_witness :
    esIgualStr (jGet [("handler", JVal.jstr "context"),
      ("visitor", JVal.jobj [("id", JVal.jstr "v7")])] "handler") "trigger" = false ∧
    esIgualStr (jGet [("handler", JVal.jstr "context"),
      ("visitor", JVal.jobj [("id", JVal.jstr "v7")])] "handler") "message" = false ∧
    get_visitor_id (JVal.jobj [("handler", JVal.jstr "context"),
      ("visitor", JVal.jobj [("id", JVal.jstr "v7")])]) = Except.ok "v7" ∧
    salesiq_webhook [("v7", ⟨"cotizacion_bloque", [("rut", "1-9")]⟩)]
      (JVal.jobj [("handler", JVal.jstr "context"),
        ("visitor", JVal.jobj [("id", JVal.jstr "v7")])]) =
      Except.ok ((setdefaultSesion [("v7", ⟨"cotizacion_bloque", [("rut", "1-9")]⟩)]
          "v7" sesion_inicial).2,
        build_reply ["He recibido su mensaje."] none) ∧
    (setdefaultSesion [("v7", ⟨"cotizacion_bloque", [("rut", "1-9")]⟩)]
      "v7" sesion_inicial).2 = [("v7", ⟨"cotizacion_bloque", [("rut", "1-9")]⟩)] :=
  ⟨by decide, by decide, rfl,
   (claim_C4_enmendada [("v7", ⟨"cotizacion_bloque", [("rut", "1-9")]⟩)]
     [("handler", JVal.jstr "context"), ("visitor", JVal.jobj [("id", JVal.jstr "v7")])]
     "v7" (by decide) (by decide) rfl).1,
   by decide⟩

/-- Claim C5: a trigger event always resets the session to
`menu_principal` (keeping its data) and answers the fixed greeting plus
the select menu with the two options; a second trigger from the
resulting store does exactly the same, and the two replies are the
identical `respuesta_trigger` value. -/
theorem claim_C5 (st : Almacen) (fs : List (String × JVal)) (vid : String)
    (hh : esIgualStr (jGet fs "handler") "trigger" = true)
    (hv : get_visitor_id (JVal.jobj fs) = Except.ok vid) :
    salesiq_webhook st (JVal.jobj fs) =
      Except.ok (tras_trigger st vid, respuesta_trigger) ∧
    (almacenBusca (tras_trigger st vid) vid).map Session.state = some "menu_principal" ∧
    salesiq_webhook (tras_trigger st vid) (JVal.jobj fs) =
      Except.ok (tras_trigger (tras_trigger st vid) vid, respuesta_trigger) ∧
    (almacenBusca (tras_trigger (tras_trigger st vid) vid) vid).map Session.state =
      some "menu_principal" := by
  have hnorm : (if veraz (JVal.jobj fs) then JVal.jobj fs else JVal.jobj []) =
      JVal.jobj fs := by
    cases fs <;> simp [veraz]
  have hgen : ∀ st0 : Almacen, salesiq_webhook st0 (JVal.jobj fs) =
      Except.ok (tras_trigger st0 vid, respuesta_trigger) := by
    intro st0
    simp only [salesiq_webhook, hnorm, hv, hh, if_true]
    rfl
  have hstate : ∀ st0 : Almacen,
      (almacenBusca (tras_trigger st0 vid) vid).map Session.state =
        some "menu_principal" := by
    intro st0
    simp only [tras_trigger]
    rw [almacenBusca_pon_igual]
    rfl
  exact ⟨hgen st, hstate st, hgen (tras_trigger st vid), hstate (tras_trigger st vid)⟩

/-- Witness for C5: two consecutive triggers for the anonymous visitor. -/
theorem claim_C5_witness :
    esIgualStr (jGet [("handler", JVal.jstr "trigger")] "handler") "trigger" = true ∧
    get_visitor_id (JVal.jobj [("handler", JVal.jstr "trigger")]) = Except.ok "anon" ∧
    salesiq_webhook [] (JVal.jobj [("handler", JVal.jstr "trigger")]) =
      Except.ok (tras_trigger [] "anon", respuesta_trigger) ∧
    salesiq_webhook (tras_trigger [] "anon") (JVal.jobj [("handler", JVal.jstr "trigger")]) =
      Except.ok (tras_trigger (tras_trigger [] "anon") "anon", respuesta_trigger) :=
  ⟨by decide, rfl,
   (claim_C5 [] [("handler", JVal.jstr "trigger")] "anon" (by decide) rfl).1,
   (claim_C5 [] [("handler", JVal.jstr "trigger")] "anon" (by decide) rfl).2.2.1⟩

lemma objeto_o_vacio (v : JVal)
    (hv : (match v with
           | JVal.jobj _ => true
           | w => !veraz w) = true) :
    ∃ vfs, (if veraz v then v else JVal.jobj []) = JVal.jobj vfs := by
  cases v with
  | jobj vfs =>
    by_cases hz : veraz (JVal.jobj vfs) = true
    · exact ⟨vfs, if_pos hz⟩
    · exact ⟨[], if_neg hz⟩
  | jnull => exact ⟨[], rfl⟩
  | jbool b =>
    have hb : veraz (JVal.jbool b) = false := by simpa using hv
    exact ⟨[], by rw [if_neg (by simp [hb])]⟩
  | jnum n =>
    have hb : veraz (JVal.jnum n) = false := by simpa using hv
    exact ⟨[], by rw [if_neg (by simp [hb])]⟩
  | jstr s =>
    have hb : veraz (JVal.jstr s) = false := by simpa using hv
    exact ⟨[], by rw [if_neg (by simp [hb])]⟩
  | jarr l =>
    have hb : veraz (JVal.jarr l) = false := by simpa using hv
    exact ⟨[], by rw [if_neg (by simp [hb])]⟩

lemma get_visitor_id_ok (fs : List (String × JVal))
    (hv : (match jGet fs "visitor" with
           | JVal.jobj _ => true
           | w => !veraz w) = true) :
    ∃ vid, get_visitor_id (JVal.jobj fs) = Except.ok vid := by
  obtain ⟨vfs, h2⟩ := objeto_o_vacio (jGet fs "visitor") hv
  simp only [get_visitor_id]
  rw [h2]
  exact ⟨_, rfl⟩

lemma extraer_mensaje_ok (fs : List (String × JVal))
    (hr : (match jGet fs "request" with
           | JVal.jobj _ => true
           | w => !veraz w) = true) :
    ∃ tx, extraer_mensaje (JVal.jobj fs) = Except.ok tx := by
  simp only [extraer_mensaje]
  by_cases hm : veraz (jGet fs "message") = true
  · rw [if_pos hm]
    exact ⟨_, rfl⟩
  · rw [if_neg hm]
    obtain ⟨rfs, h2⟩ := objeto_o_vacio (jGet fs "request") hr
    rw [h2]
    exact ⟨_, rfl⟩

lemma respuesta_valida_ok (st2 : Almacen) (r : Reply) (h : r.replies ≠ []) :
    respuesta_valida (Except.ok (st2, r)) = true := by
  simp [respuesta_valida, List.isEmpty_iff, h]

/-- Counterexample to C9 as stated: a message event whose `visitor` field
is a truthy non-object makes `get_visitor_id` call `.get` on a string,
which raises AttributeError — the handler does not produce a Reply for
every malformed payload. -/
theorem claim_C9_counterexample :
    salesiq_webhook []
      (JVal.jobj [("handler", JVal.jstr "message"), ("visitor", JVal.jstr "hola")]) =
      Except.error "AttributeError" ∧
    respuesta_valida (salesiq_webhook []
      (JVal.jobj [("handler", JVal.jstr "message"), ("visitor", JVal.jstr "hola")])) =
      false :=
  ⟨rfl, rfl⟩

/-- C9 (amended): whenever the (truthiness-defaulted) payload is an
object and its `visitor` and `request` fields are objects whenever
truthy, the webhook terminates with a well-formed Reply whose `replies`
sequence is non-empty, whatever the handler, states and message; a
missing or falsy visitor object (or one with all five identity fields
falsy) resolves to the id "anon", and a missing message with a missing
`request` resolves to the empty message text.  (A truthy non-object
payload, visitor or request raises AttributeError instead.) -/
theorem claim_C9_enmendada (st : Almacen) (p : JVal)
    (hseg : payloadSeguro p = true) :
    respuesta_valida (salesiq_webhook st p) = true ∧
    (∀ fs vfs, (if veraz (jGet fs "visitor") then jGet fs "visitor" else JVal.jobj []) =
        JVal.jobj vfs →
      veraz (jGet vfs "id") = false → veraz (jGet vfs "visitor_id") = false →
      veraz (jGet vfs "email") = false → veraz (jGet vfs "phone") = false →
      veraz (jGet vfs "ip") = false →
      get_visitor_id (JVal.jobj fs) = Except.ok "anon") ∧
    (∀ fs, veraz (jGet fs "message") = false → veraz (jGet fs "request") = false →
      extraer_mensaje (JVal.jobj fs) = Except.ok "") := by
  refine ⟨?_, ?_, ?_⟩
  · unfold payloadSeguro at hseg
    cases hp : (if veraz p then p else JVal.jobj []) with
    | jobj fs =>
      rw [hp] at hseg
      have hseg2 : (match jGet fs "visitor" with
            | JVal.jobj _ => true
            | w => !veraz w) = true ∧
          (match jGet fs "request" with
            | JVal.jobj _ => true
            | w => !veraz w) = true := by
        simpa [Bool.and_eq_true] using hseg
      obtain ⟨vid, hvid⟩ := get_visitor_id_ok fs hseg2.1
      simp only [salesiq_webhook, hp, hvid]
      by_cases h1 : esIgualStr (jGet fs "handler") "trigger" = true
      · simp only [h1, if_true]
        exact respuesta_valida_ok _ _ (by simp [respuesta_trigger, build_reply])
      · have h1f : esIgualStr (jGet fs "handler") "trigger" = false := by simpa using h1
        by_cases h2 : esIgualStr (jGet fs "handler") "message" = true
        · obtain ⟨tx, htx⟩ := extraer_mensaje_ok fs hseg2.2
          simp only [h1f, h2, Bool.false_eq_true, if_false, if_true, htx]
          exact respuesta_valida_ok _ _ (respuestas_despacho _ tx)
        · have h2f : esIgualStr (jGet fs "handler") "message" = false := by simpa using h2
          simp only [h1f, h2f, Bool.false_eq_true, if_false]
          exact respuesta_valida_ok _ _ (by simp [build_reply])
    | jnull => rw [hp] at hseg; simp at hseg
    | jbool b => rw [hp] at hseg; simp at hseg
    | jnum n => rw [hp] at hseg; simp at hseg
    | jstr s => rw [hp] at hseg; simp at hseg
    | jarr l => rw [hp] at hseg; simp at hseg
  · intro fs vfs h2 hi1 hi2 hi3 hi4 hi5
    simp only [get_visitor_id]
    rw [h2]
    simp [primerVeraz, hi1, hi2, hi3, hi4, hi5, comoStr]
  · intro fs hm hr
    simp only [extraer_mensaje]
    rw [if_neg (by simp [hm]), if_neg (by simp [hr])]
    rfl

/-- Witness for the amended C9 at the empty-object payload. -/
theorem claim_C9_witness :
    payloadSeguro (JVal.jobj []) = true ∧
    respuesta_valida (salesiq_webhook [] (JVal.jobj [])) = true ∧
    get_visitor_id (JVal.jobj []) = Except.ok "anon" ∧
    extraer_mensaje (JVal.jobj []) = Except.ok "" :=
  ⟨rfl,
   (claim_C9_enmendada [] (JVal.jobj []) rfl).1,
   (claim_C9_enmendada [] (JVal.jobj []) rfl).2.1 [] [] rfl rfl rfl rfl rfl rfl,
   (claim_C9_enmendada [] (JVal.jobj []) rfl).2.2 [] rfl rfl⟩

lemma buscarChar_mem {β : Type} (c : Char) (t : List (Char × β)) (b : β)
    (h : buscarChar c t = some b) : (c, b) ∈ t := by
  induction t with
  | nil => simp [buscarChar] at h
  | cons p resto ih =>
    obtain ⟨a, v⟩ := p
    by_cases hc : c = a
    · subst hc
      simp [buscarChar] at h
      simp [h]
    · simp [buscarChar, hc] at h
      simp [ih h]

lemma caracter_normal (c : Char) :
    ∀ d ∈ nfdChar (pyMinuscula c), pyMinuscula d = d ∧ nfdChar d = [d] := by
  have hA : ∀ p ∈ tablaMinusculas, ∀ d ∈ nfdChar p.2,
      pyMinuscula d = d ∧ nfdChar d = [d] := by decide
  have hB : ∀ p ∈ tablaNFD, ∀ d ∈ p.2,
      pyMinuscula d = d ∧ nfdChar d = [d] := by decide
  cases hm : buscarChar c tablaMinusculas with
  | some d0 =>
    have hmem := buscarChar_mem c tablaMinusculas d0 hm
    have he : pyMinuscula c = d0 := by simp [pyMinuscula, hm]
    rw [he]
    exact hA (c, d0) hmem
  | none =>
    have hc : pyMinuscula c = c := by simp [pyMinuscula, hm]
    rw [hc]
    cases hn : buscarChar c tablaNFD with
    | some l =>
      have hmem := buscarChar_mem c tablaNFD l hn
      have he : nfdChar c = l := by simp [nfdChar, hn]
      rw [he]
      exact hB (c, l) hmem
    | none =>
      have he : nfdChar c = [c] := by simp [nfdChar, hn]
      rw [he]
      intro d hd
      rw [List.mem_singleton] at hd
      subst hd
      exact ⟨hc, he⟩

lemma mem_recortar (p : Char → Bool) (l : List Char) (d : Char)
    (h : d ∈ recortar p l) : d ∈ l := by
  unfold recortar at h
  rw [List.mem_reverse] at h
  have h1 := (List.dropWhile_suffix p).subset h
  rw [List.mem_reverse] at h1
  exact (List.dropWhile_suffix p).subset h1

lemma normalizar_no_vacio (t : String) (h : t ≠ "") :
    normalizar_texto t = String.mk (recortar esEspacio
      (((t.toList.map pyMinuscula).flatMap nfdChar).filter (fun c => !esMarca c))) := by
  rw [normalizar_texto, if_neg h]

lemma normalizar_chars (s : String) :
    ∀ d ∈ (normalizar_texto s).toList,
      pyMinuscula d = d ∧ nfdChar d = [d] ∧ esMarca d = false := by
  by_cases hs : s = ""
  · rw [hs]
    intro d hd
    simp [normalizar_texto] at hd
  · rw [normalizar_no_vacio s hs]
    intro d hd
    have hd1 : d ∈ ((s.toList.map pyMinuscula).flatMap nfdChar).filter
        (fun c => !esMarca c) := mem_recortar _ _ _ hd
    have hd2 := List.mem_filter.mp hd1
    obtain ⟨c0, hc0, hdc⟩ := List.mem_flatMap.mp hd2.1
    obtain ⟨c1, hc1, hcc⟩ := List.mem_map.mp hc0
    have hmn : esMarca d = false := by simpa using hd2.2
    obtain ⟨hlow, hnfd⟩ := caracter_normal c1 d (by rw [hcc]; exact hdc)
    exact ⟨hlow, hnfd, hmn⟩

lemma map_id_en (f : Char → Char) (L : List Char) (h : ∀ d ∈ L, f d = d) :
    L.map f = L := by
  induction L with
  | nil => rfl
  | cons a l ih =>
    simp only [List.map_cons, h a (by simp)]
    rw [ih (fun d hd => h d (by simp [hd]))]

lemma flatMap_id_en (f : Char → List Char) (L : List Char)
    (h : ∀ d ∈ L, f d = [d]) : L.flatMap f = L := by
  induction L with
  | nil => rfl
  | cons a l ih =>
    rw [List.flatMap_cons, h a (by simp), ih (fun d hd => h d (by simp [hd]))]
    rfl

lemma dropWhile_dropWhile (p : Char → Bool) (l : List Char) :
    (l.dropWhile p).dropWhile p = l.dropWhile p := by
  induction l with
  | nil => rfl
  | cons a l ih =>
    by_cases h : p a = true
    · simp [List.dropWhile_cons, h, ih]
    · simp [List.dropWhile_cons, h]

lemma cabeza_no_p (p : Char → Bool) (x : Char) (xs : List Char)
    (h : (x :: xs).dropWhile p = x :: xs) : p x = false := by
  by_cases hp : p x = true
  · rw [List.dropWhile_cons, if_pos hp] at h
    have hlen := congrArg List.length h
    simp only [List.length_cons] at hlen
    have hle := (@List.dropWhile_suffix Char xs p).length_le
    omega
  · simpa using hp

lemma recortar_idem (p : Char → Bool) (l : List Char) :
    recortar p (recortar p l) = recortar p l := by
  unfold recortar
  set a := l.dropWhile p with ha
  set b := a.reverse.dropWhile p with hb
  have hbb : b.dropWhile p = b := by
    rw [hb]
    exact dropWhile_dropWhile p a.reverse
  have hr : b.reverse.dropWhile p = b.reverse := by
    cases hrv : b.reverse with
    | nil => simp
    | cons x xs =>
      have hpre : b.reverse <+: a := by
        have hsuf : b <:+ a.reverse := by
          rw [hb]
          exact List.dropWhile_suffix p
        have h2 := (@List.reverse_prefix Char b a.reverse).mpr hsuf
        rwa [List.reverse_reverse] at h2
      obtain ⟨t, hat⟩ := hpre
      have haa : a.dropWhile p = a := by
        rw [ha]
        exact dropWhile_dropWhile p l
      rw [hrv] at hat
      have hx : p x = false := by
        apply cabeza_no_p p x (xs ++ t)
        have hat2 : a = x :: (xs ++ t) := by
          rw [← hat]
          simp
        rw [← hat2]
        exact haa
      rw [List.dropWhile_cons, if_neg (by simp [hx])]
  rw [hr, List.reverse_reverse, hbb]

lemma normalizar_idem (s : String) :
    normalizar_texto (normalizar_texto s) = normalizar_texto s := by
  by_cases hs : s = ""
  · rw [hs]
    rfl
  · by_cases hout : normalizar_texto s = ""
    · rw [hout]
      rfl
    · have hchars := normalizar_chars s
      rw [normalizar_no_vacio _ hout]
      have h1 : (normalizar_texto s).toList.map pyMinuscula = (normalizar_texto s).toList :=
        map_id_en _ _ (fun d hd => (hchars d hd).1)
      have h2 : (normalizar_texto s).toList.flatMap nfdChar = (normalizar_texto s).toList :=
        flatMap_id_en _ _ (fun d hd => (hchars d hd).2.1)
      have h3 : (normalizar_texto s).toList.filter (fun c => !esMarca c) =
          (normalizar_texto s).toList :=
        List.filter_eq_self.mpr (fun d hd => by simp [(hchars d hd).2.2])
      rw [h1, h2, h3]
      have h4 : (normalizar_texto s).toList = recortar esEspacio
          (((s.toList.map pyMinuscula).flatMap nfdChar).filter (fun c => !esMarca c)) := by
        rw [normalizar_no_vacio s hs]
        rfl
      rw [h4, recortar_idem]
      exact (normalizar_no_vacio s hs).symm

/-- Claim C7: for every input, the normalizer output is lowercase (a
fixed point of the modelled `str.lower`), contains no combining
diacritical marks, and is a fixed point of the normalizer itself; the
empty input yields the empty string (a Python `None` is also falsy and
takes the same branch), and normalize("Cotización") = "cotizacion". -/
theorem claim_C7 (s : String) :
    ((normalizar_texto s).toList.all (fun c => pyMinuscula c == c)) = true ∧
    ((normalizar_texto s).toList.all (fun c => !esMarca c)) = true ∧
    normalizar_texto (normalizar_texto s) = normalizar_texto s ∧
    normalizar_texto "" = "" ∧
    normalizar_texto "Cotización" = "cotizacion" := by
  refine ⟨?_, ?_, normalizar_idem s, rfl, by decide⟩
  · rw [List.all_eq_true]
    intro c hc
    simp [(normalizar_chars s c hc).1]
  · rw [List.all_eq_true]
    intro c hc
    simp [(normalizar_chars s c hc).2.2]

end ServerHook
